import Mathlib

/-!
Verification of the advertisement-pipeline control plane
(`ad_control_plane.py` / `ad_agent_core.py` / `ad_modules.py`).

The embedding models the scheduler and dispatcher faithfully:

* `Context` mirrors `AdMCPControlPlane.context_template`: the fixed template
  keys (including the legacy result slots `demand_info` … `video_info`, which
  the control plane initialises to `{}` and never writes again) plus the
  dynamically added keys `"<module>_info"` (field `infoSlots`) and the
  transient `"user_feedback"` key (an `Option`, `none` meaning the key is
  absent from the dict).
* Python dict values are abstracted to flat string records (`Rec`); module
  `run` bodies are external LLM / image-API calls, so a run is a parameter
  (`Behavior`), returning either a `{status, result, error}` record or raising.
  The modules' `validate_input` bodies are pure and are embedded directly.
* `St` threads the in-memory context, the last snapshot written by
  `save_context` (`disk`), the contents of the template's `error_log` list
  object together with a flag recording whether the task context still
  aliases it (`init_ad_task` uses a shallow `dict.copy()`, and
  `_dispatch_module` appends to `error_log` in place in one branch), and a
  trace of observable events (validate calls, run calls, context mutations).
* Wall-clock timestamps are abstracted to the constant `nowTime`; they carry
  no information the claims depend on beyond their presence.
-/

namespace AdAgent

/-- Flat string-keyed record modelling a Python dict whose leaves we do not
need to inspect further. -/
abbrev Rec := List (String × String)

/-- Membership test `k in r` on a record. -/
def recHas (r : Rec) (k : String) : Bool := r.any (fun p => p.1 == k)

/-- Lookup `r[k]` on a record, `none` modelling a `KeyError`. -/
def recGet (r : Rec) (k : String) : Option String :=
  (r.find? (fun p => p.1 == k)).map (fun p => p.2)

/-- Entry of `context["error_log"]`: `{"step": …, "error": …, "time": …}`. -/
structure ErrorEntry where
  step : String
  error : Option String
  time : String
deriving DecidableEq

/-- The abstracted wall clock (`time.strftime(...)` in the source). -/
def nowTime : String := "T"

/-- Value of `context["module_status"]`: one status string per registered
module (`{mod: "idle" for mod in self.schedule_flow}`). -/
structure ModuleStatus where
  demand_interact : String
  story_builder : String
  scene_designer : String
  storyboard_designer : String
  grid_image_generator : String
  image_optimizer : String
  video_generator : String
deriving DecidableEq

/-- Read `module_status[name]` (only ever applied to the seven names). -/
def ModuleStatus.get (ms : ModuleStatus) (name : String) : String :=
  if name == "demand_interact" then ms.demand_interact
  else if name == "story_builder" then ms.story_builder
  else if name == "scene_designer" then ms.scene_designer
  else if name == "storyboard_designer" then ms.storyboard_designer
  else if name == "grid_image_generator" then ms.grid_image_generator
  else if name == "image_optimizer" then ms.image_optimizer
  else if name == "video_generator" then ms.video_generator
  else ""

/-- The dict rebuild `{**context["module_status"], name: status}`. -/
def ModuleStatus.set (ms : ModuleStatus) (name status : String) : ModuleStatus :=
  if name == "demand_interact" then { ms with demand_interact := status }
  else if name == "story_builder" then { ms with story_builder := status }
  else if name == "scene_designer" then { ms with scene_designer := status }
  else if name == "storyboard_designer" then { ms with storyboard_designer := status }
  else if name == "grid_image_generator" then { ms with grid_image_generator := status }
  else if name == "image_optimizer" then { ms with image_optimizer := status }
  else if name == "video_generator" then { ms with video_generator := status }
  else ms

/-- All modules idle, as in the context template. -/
def initModuleStatus : ModuleStatus :=
  ⟨"idle", "idle", "idle", "idle", "idle", "idle", "idle"⟩

/-- The task context (`AdMCPControlPlane.context_template` plus the keys the
scheduler adds dynamically).  `module_status` is rebuilt (never mutated in
place) by the dispatcher, so plain value semantics are faithful for it; the
`error_log` aliasing is tracked in `St` below. -/
structure Context where
  task_id : Option String
  task_status : String
  current_step : Option String
  progress : ℚ
  create_time : Option String
  update_time : Option String
  initial_input : Rec
  demand_info : Rec
  story_info : Rec
  scene_info : Rec
  storyboard_info : Rec
  grid_image_info : Rec
  hd_image_info : Rec
  video_info : Rec
  module_status : ModuleStatus
  error_log : List ErrorEntry
  infoSlots : List (String × Rec)
  user_feedback : Option String
deriving DecidableEq

/-- Assignment `d[k] = v` on the dynamic `"<module>_info"` keys: overwrite in
place if present, append otherwise. -/
def setSlot (l : List (String × Rec)) (k : String) (v : Rec) : List (String × Rec) :=
  if l.any (fun p => p.1 == k) then
    l.map (fun p => if p.1 == k then (k, v) else p)
  else l ++ [(k, v)]

/-- Membership `k in context` for the dynamic result slots. -/
def Context.hasSlot (c : Context) (k : String) : Bool :=
  c.infoSlots.any (fun p => p.1 == k)

/-- Lookup of a dynamic result slot. -/
def Context.getSlot (c : Context) (k : String) : Option Rec :=
  (c.infoSlots.find? (fun p => p.1 == k)).map (fun p => p.2)

/-- Membership `k in context` on the whole dict: the sixteen template keys are
always present; the result slots and `user_feedback` only once added. -/
def Context.hasKey (c : Context) (k : String) : Bool :=
  ["task_id", "task_status", "current_step", "progress", "create_time",
   "update_time", "initial_input", "demand_info", "story_info", "scene_info",
   "storyboard_info", "grid_image_info", "hd_image_info", "video_info",
   "module_status", "error_log"].contains k
  || c.hasSlot k
  || (k == "user_feedback" && c.user_feedback.isSome)

/-- Embedding of `DemandInteractModule.validate_input`: both image keys present in
`context["initial_input"]`. -/
def DemandInteractModule.validate_input (c : Context) : Bool :=
  recHas c.initial_input "product_image" && recHas c.initial_input "character_setting"

/-- Embedding of `StoryBuilderModule.validate_input`. -/
def StoryBuilderModule.validate_input (c : Context) : Bool :=
  c.hasKey "demand_interact_info"

/-- Embedding of `SceneDesignModule.validate_input`. -/
def SceneDesignModule.validate_input (c : Context) : Bool :=
  c.hasKey "story_builder_info" && c.hasKey "demand_interact_info"

/-- Embedding of `StoryboardDesignModule.validate_input`. -/
def StoryboardDesignModule.validate_input (c : Context) : Bool :=
  c.hasKey "scene_designer_info" && c.hasKey "story_builder_info"

/-- Embedding of `GridImageGenerateModule.validate_input` (the key `"task_id"` is one of
the template keys, hence always present). -/
def GridImageGenerateModule.validate_input (c : Context) : Bool :=
  c.hasKey "storyboard_designer_info" && c.hasKey "story_builder_info" && c.hasKey "task_id"

/-- Embedding of `ImageOptimizeModule.validate_input`. -/
def ImageOptimizeModule.validate_input (c : Context) : Bool :=
  c.hasKey "grid_image_generator_info" && c.hasKey "task_id"

/-- Embedding of `VideoGenerateModule.validate_input`. -/
def VideoGenerateModule.validate_input (c : Context) : Bool :=
  c.hasKey "image_optimizer_info" && c.hasKey "scene_designer_info" && c.hasKey "task_id"

/-- Registry-indexed validation: `self.module_registry[module_name].validate_input`. -/
def validateOf (name : String) (c : Context) : Bool :=
  if name == "demand_interact" then DemandInteractModule.validate_input c
  else if name == "story_builder" then StoryBuilderModule.validate_input c
  else if name == "scene_designer" then SceneDesignModule.validate_input c
  else if name == "storyboard_designer" then StoryboardDesignModule.validate_input c
  else if name == "grid_image_generator" then GridImageGenerateModule.validate_input c
  else if name == "image_optimizer" then ImageOptimizeModule.validate_input c
  else if name == "video_generator" then VideoGenerateModule.validate_input c
  else false

/-- Outcome of one invocation of a module's `run`: a returned
`{status, result, error}` record, or a raised exception. -/
inductive RunOutcome where
  | ret (status : String) (result : Rec) (error : Option String)
  | raise (msg : String)
deriving DecidableEq

/-- The modules' `run` bodies call external generative services; a behavior
assigns each (module name, context) an outcome. -/
abbrev Behavior := String → Context → RunOutcome

/-- The normalized `{status, result, error}` record `_dispatch_module` returns. -/
structure MRes where
  status : String
  result : Rec
  error : Option String
deriving DecidableEq

/-- Observable events of a run: each `validate_input` call with its result,
each `run` call with the context handed to the module, and each mutation of
the in-memory context (`saved` records whether a `save_context` accompanied
it; `disk` is the on-disk snapshot right after the event). -/
inductive Event where
  | validateCall (name : String) (ok : Bool)
  | runCall (name : String) (ctx : Context)
  | mutation (saved : Bool) (ctx : Context) (disk : Context)
deriving DecidableEq

/-- Execution state: in-memory context, last `save_context` snapshot, the
contents of the control plane's `context_template["error_log"]` list object,
whether `ctx.error_log` still aliases that object, and the event trace. -/
structure St where
  ctx : Context
  disk : Context
  tmplLog : List ErrorEntry
  logShared : Bool
  events : List Event
deriving DecidableEq

/-- Embedding of `AdMCPControlPlane._update_context`: merge the update dict, refresh
`update_time`, `save_context`.  `logReplaced` records whether the update dict
assigned a fresh list to `error_log` (ending the aliasing with the template's
list). -/
def update_context (logReplaced : Bool) (f : Context → Context) (st : St) : St :=
  let c := { f st.ctx with update_time := some nowTime }
  { st with
    ctx := c
    disk := c
    logShared := st.logShared && !logReplaced
    events := st.events ++ [Event.mutation true c c] }

/-- The in-place `context["error_log"].append(...)` followed by
`save_context` (`_dispatch_module`, failed-status branch).  It does not
refresh `update_time`, and while the context still aliases the template's
list the append is visible in the template as well. -/
def appendLogInPlace (entry : ErrorEntry) (st : St) : St :=
  let log := st.ctx.error_log ++ [entry]
  let c := { st.ctx with error_log := log }
  { st with
    ctx := c
    disk := c
    tmplLog := if st.logShared then log else st.tmplLog
    events := st.events ++ [Event.mutation true c c] }

/-- Embedding of `self.schedule_flow`: the fixed seven-step order. -/
def schedule_flow : List String :=
  ["demand_interact", "story_builder", "scene_designer",
   "storyboard_designer", "grid_image_generator", "image_optimizer",
   "video_generator"]

/-- Constant `PAUSE_NODES` from `ad_agent_core.py`. -/
def PAUSE_NODES : List String := ["story_builder", "storyboard_designer"]

/-- Constant `BASE_OUTPUT_DIR` from `ad_agent_core.py`. -/
def BASE_OUTPUT_DIR : String := "./ad_output"

/-- Python's `round` on a rational: nearest integer, ties to even (the
fractional part is compared with one half via `2*x ≶ 2*⌊x⌋ + 1`). -/
def pyRound (x : ℚ) : ℤ :=
  if 2 * x < 2 * (⌊x⌋ : ℚ) + 1 then ⌊x⌋
  else if 2 * (⌊x⌋ : ℚ) + 1 < 2 * x then ⌊x⌋ + 1
  else if 2 ∣ ⌊x⌋ then ⌊x⌋ else ⌊x⌋ + 1

/-- Python's `round(x, 2)`.  The seven progress values are far from rounding ties, so
exact rational rounding agrees with Python's float rounding here. -/
def pyRound2 (x : ℚ) : ℚ := (pyRound (x * 100) : ℚ) / 100

/-- Embedding of `AdMCPControlPlane._calculate_progress`. -/
def calculate_progress (current_module : String) : ℚ :=
  let step_idx := schedule_flow.indexOf current_module
  let total_steps := schedule_flow.length
  pyRound2 ((step_idx + 1 : ℚ) / total_steps * 100)

/-- The validation-failure message built in `_dispatch_module`. -/
def validateFailMsg (name : String) : String :=
  "模块【" ++ name ++ "】输入校验失败，上下文缺失必要数据"

/-- The exception-conversion message built in `_dispatch_module`. -/
def runExcMsg (name msg : String) : String :=
  "模块【" ++ name ++ "】执行异常：" ++ msg

/-- Embedding of `AdMCPControlPlane._dispatch_module`. -/
def dispatch_module (beh : Behavior) (name : String) (st0 : St) : MRes × St :=
  let st := { st0 with
    events := st0.events ++ [Event.validateCall name (validateOf name st0.ctx)] }
  if validateOf name st.ctx = false then
    let msg := validateFailMsg name
    let st1 := update_context true (fun c =>
      { c with module_status := c.module_status.set name "failed",
               error_log := c.error_log ++ [⟨name, some msg, nowTime⟩] }) st
    (⟨"failed", [], some msg⟩, st1)
  else
    let st1 := update_context false (fun c =>
      { c with current_step := some name,
               module_status := c.module_status.set name "busy",
               progress := calculate_progress name }) st
    let st2 := { st1 with events := st1.events ++ [Event.runCall name st1.ctx] }
    match beh name st1.ctx with
    | RunOutcome.ret s r e =>
        let new_status := if s == "success" then "success" else "failed"
        let st3 := update_context false (fun c =>
          { c with module_status := c.module_status.set name new_status }) st2
        let st4 := if s == "failed" then appendLogInPlace ⟨name, e, nowTime⟩ st3 else st3
        (⟨s, r, e⟩, st4)
    | RunOutcome.raise m =>
        let msg := runExcMsg name m
        let st3 := update_context true (fun c =>
          { c with module_status := c.module_status.set name "failed",
                   error_log := c.error_log ++ [⟨name, some msg, nowTime⟩] }) st2
        (⟨"failed", [], some msg⟩, st3)

/-- The context template (`self.context_template`); its `error_log` is the
template's own (shared) list object. -/
def context_template (tmplLog : List ErrorEntry) : Context :=
  { task_id := none, task_status := "init", current_step := none, progress := 0,
    create_time := none, update_time := none, initial_input := [],
    demand_info := [], story_info := [], scene_info := [], storyboard_info := [],
    grid_image_info := [], hd_image_info := [], video_info := [],
    module_status := initModuleStatus, error_log := tmplLog,
    infoSlots := [], user_feedback := none }

/-- Embedding of `AdMCPControlPlane.init_ad_task` (the context it builds; the shallow
`copy()` shares the template's `error_log` list). -/
def init_ad_task (tmplLog : List ErrorEntry) (task_id : String) (initial_input : Rec) :
    Context :=
  { context_template tmplLog with
      task_id := some task_id, create_time := some nowTime,
      update_time := some nowTime, initial_input := initial_input,
      task_status := "processing" }

/-- State right after `init_ad_task` (which also calls `save_context`). -/
def initSt (tmplLog : List ErrorEntry) (task_id : String) (initial_input : Rec) : St :=
  let c := init_ad_task tmplLog task_id initial_input
  { ctx := c, disk := c, tmplLog := tmplLog, logShared := true,
    events := [Event.mutation true c c] }

/-- The human decision at a pause node (`user_confirm` plus, on revise, the
stripped free-text feedback read from the operator). -/
inductive Decision where
  | confirm
  | revise (feedback : String)

/-- The task-level result record; `Option` fields model keys absent from the
returned dict (the unexpected-fault branch returns no `task_id` and no
`current_step`; the success branch returns no `current_step`). -/
structure TaskResult where
  code : Nat
  task_id : Option String
  status : String
  current_step : Option String
  error : Option String
  final_video_path : Option String
  task_dir : Option String
  context : Context
deriving DecidableEq

/-- The failure record built in the scheduling loop of `run_ad_task`. -/
def failResult (task_id name : String) (err : Option String) (c : Context) : TaskResult :=
  { code := 500, task_id := some task_id, status := "failed",
    current_step := some name, error := err, final_video_path := none,
    task_dir := none, context := c }

/-- The scheduling loop of `run_ad_task` (step 2): dispatch each step in
order, stop on failure, merge results, and run the confirm/revise interaction
at pause nodes.  Returns `some result` on early failure. -/
def runSteps (beh : Behavior) (dec : String → Decision) (task_id : String) :
    List String → St → Option TaskResult × St
  | [], st => (none, st)
  | name :: rest, st =>
    let d := dispatch_module beh name st
    let mres := d.1
    let st1 := d.2
    if mres.status == "failed" then
      let st2 := update_context true (fun c =>
        { c with task_status := "failed",
                 error_log := c.error_log ++ [⟨name, mres.error, nowTime⟩] }) st1
      (some (failResult task_id name mres.error st2.ctx), st2)
    else
      let st2 := update_context false (fun c =>
        { c with infoSlots := setSlot c.infoSlots (name ++ "_info") mres.result }) st1
      if PAUSE_NODES.contains name then
        match dec name with
        | Decision.confirm => runSteps beh dec task_id rest st2
        | Decision.revise fb =>
          let st3 :=
            if fb == "" then st2
            else
              let c := { st2.ctx with user_feedback := some fb }
              { st2 with
                ctx := c
                events := st2.events ++ [Event.mutation false c st2.disk] }
          let d2 := dispatch_module beh name st3
          let mres2 := d2.1
          let st4 := d2.2
          let st5 :=
            if st4.ctx.user_feedback.isSome then
              let c := { st4.ctx with user_feedback := none }
              { st4 with
                ctx := c
                events := st4.events ++ [Event.mutation false c st4.disk] }
            else st4
          if mres2.status == "failed" then
            let st6 := update_context false (fun c => { c with task_status := "failed" }) st5
            (some (failResult task_id name mres2.error st6.ctx), st6)
          else
            let st6 := update_context false (fun c =>
              { c with infoSlots := setSlot c.infoSlots (name ++ "_info") mres2.result }) st5
            runSteps beh dec task_id rest st6
      else runSteps beh dec task_id rest st2

/-- Embedding of `AdMCPControlPlane.run_ad_task`.  After all seven steps:
`final_context["video_info"]["final_video_path"]` — `video_info` is the
always-empty template slot, so the lookup models the `KeyError` reaching the
outer `except`, which returns the code-500 record. -/
def run_ad_task (beh : Behavior) (dec : String → Decision)
    (tmplLog : List ErrorEntry) (task_id : String) (initial_input : Rec) :
    TaskResult × St :=
  let st0 := initSt tmplLog task_id initial_input
  let r := runSteps beh dec task_id schedule_flow st0
  match r with
  | (some res, st) => (res, st)
  | (none, st) =>
    let st1 := update_context false (fun c =>
      { c with task_status := "finished", progress := 100 }) st
    match recGet st1.ctx.video_info "final_video_path" with
    | some p =>
      ({ code := 200, task_id := some task_id, status := "success",
         current_step := none, error := none, final_video_path := some p,
         task_dir := some (BASE_OUTPUT_DIR ++ "/" ++ task_id),
         context := st1.ctx }, st1)
    | none =>
      ({ code := 500, task_id := none, status := "failed", current_step := none,
         error := some "广告任务执行异常：'final_video_path'",
         final_video_path := none, task_dir := none, context := st1.ctx }, st1)

/-- Names of the modules whose `validate_input` or `run` was invoked, in
order. -/
def attemptNames (l : List Event) : List String :=
  l.filterMap (fun e => match e with
    | Event.validateCall n _ => some n
    | Event.runCall n _ => some n
    | Event.mutation _ _ _ => none)

/-- The `run` calls of a trace, with the context handed to each. -/
def runCalls (l : List Event) : List (String × Context) :=
  l.filterMap (fun e => match e with
    | Event.runCall n c => some (n, c)
    | _ => none)

/-- Successive values of `module_status[name]` at each context mutation. -/
def statusTrace (name : String) (l : List Event) : List String :=
  l.filterMap (fun e => match e with
    | Event.mutation _ c _ => some (c.module_status.get name)
    | _ => none)

/-- The context with the transient `user_feedback` key removed. -/
def eraseFeedback (c : Context) : Context := { c with user_feedback := none }

/-- Consistency of one trace event with the persistence discipline: a
mutation accompanied by a save leaves the disk snapshot equal to the
in-memory context, and even an unsaved mutation differs from disk only in
the transient `user_feedback` key. -/
def eventOK : Event → Prop
  | Event.mutation s c d => (s = true → c = d) ∧ eraseFeedback c = eraseFeedback d
  | _ => True

/-- A mutation event after which the disk snapshot disagrees with the
in-memory context on the `user_feedback` key — in particular the persisted
snapshot is not the current in-memory context. -/
def unsyncedMutation : Event → Bool
  | Event.mutation _ c d => !(c.user_feedback == d.user_feedback)
  | _ => false

/-- Fixture: a canonical successful result record per module; the video
module's record carries the final artifact path, as in
`VideoGenerateModule.run`. -/
def okResult (name : String) : Rec :=
  if name == "video_generator" then [("final_video_path", "v.mp4")] else [(name, "ok")]

/-- Fixture: every module's `run` returns `{status: "success"}`. -/
def behOK : Behavior := fun name _ => RunOutcome.ret "success" (okResult name) none

/-- Fixture: `demand_interact`'s `run` returns an explicit failed outcome;
every other module succeeds. -/
def behFailDemand : Behavior := fun name c =>
  if name == "demand_interact" then RunOutcome.ret "failed" [] (some "boom")
  else behOK name c

/-- Fixture: `scene_designer`'s `run` returns `{status: "failed", error: "X"}`;
every other module succeeds. -/
def behFailScene : Behavior := fun name c =>
  if name == "scene_designer" then RunOutcome.ret "failed" [] (some "X")
  else behOK name c

/-- Fixture: the operator confirms at every pause node. -/
def decConfirm : String → Decision := fun _ => Decision.confirm

/-- Fixture: the operator asks for a revision with non-empty feedback at the
`story_builder` pause node and confirms at `storyboard_designer`. -/
def decRevise : String → Decision := fun n =>
  if n == "story_builder" then Decision.revise "make it funnier" else Decision.confirm

/-- Fixture: an initial input carrying both required image keys. -/
def inputOK : Rec := [("product_image", "p.jpg"), ("character_setting", "c.jpg")]

/-- Fixture: a module whose `run` returns an explicit failed outcome whenever
revision feedback is present in the context, and succeeds otherwise. -/
def behFailOnFeedback : Behavior := fun name c =>
  if c.user_feedback.isSome then RunOutcome.ret "failed" [] (some "rejected")
  else behOK name c

/-- Fixture: a module whose `run` raises whenever revision feedback is
present in the context, and succeeds otherwise. -/
def behRaiseOnFeedback : Behavior := fun name c =>
  if c.user_feedback.isSome then RunOutcome.raise "llm crash"
  else behOK name c

/-- Fixture: the operator confirms at `story_builder` and asks for a revision
with non-empty feedback at the `storyboard_designer` pause node. -/
def decReviseStoryboard : String → Decision := fun n =>
  if n == "storyboard_designer" then Decision.revise "more shots" else Decision.confirm

/-- Reading back `module_status[name]` after the rebuild `{**ms, name: s}`,
for any registered module name. -/
theorem ModuleStatus.get_set (ms : ModuleStatus) {name : String}
    (h : name ∈ schedule_flow) (s : String) : (ms.set name s).get name = s := by
  simp only [schedule_flow, List.mem_cons, List.not_mem_nil, or_false] at h
  rcases h with rfl | rfl | rfl | rfl | rfl | rfl | rfl <;>
    simp [ModuleStatus.set, ModuleStatus.get]

/-- The seven progress percentages in schedule order: 14.29, 28.57, 42.86,
57.14, 71.43, 85.71, 100. -/
theorem progressTable :
    schedule_flow.map calculate_progress
      = [1429 / 100, 2857 / 100, 2143 / 50, 2857 / 50, 7143 / 100, 8571 / 100, 100] := by
  have i1 : schedule_flow.indexOf "demand_interact" = 0 := by decide
  have i2 : schedule_flow.indexOf "story_builder" = 1 := by decide
  have i3 : schedule_flow.indexOf "scene_designer" = 2 := by decide
  have i4 : schedule_flow.indexOf "storyboard_designer" = 3 := by decide
  have i5 : schedule_flow.indexOf "grid_image_generator" = 4 := by decide
  have i6 : schedule_flow.indexOf "image_optimizer" = 5 := by decide
  have i7 : schedule_flow.indexOf "video_generator" = 6 := by decide
  simp only [schedule_flow, List.map_cons, List.map_nil, calculate_progress,
    List.length_cons, List.length_nil]
  rw [show ["demand_interact", "story_builder", "scene_designer", "storyboard_designer",
    "grid_image_generator", "image_optimizer", "video_generator"] = schedule_flow from rfl]
  rw [i1, i2, i3, i4, i5, i6, i7]
  norm_num [pyRound2, pyRound]

/-- The progress percentages are non-decreasing along the schedule. -/
theorem progressChain :
    List.Chain' (fun a b => a ≤ b) (schedule_flow.map calculate_progress) := by
  rw [progressTable]
  norm_num [List.chain'_cons]

/-- Every progress percentage lies in [0, 100]. -/
theorem progressBounds :
    (schedule_flow.map calculate_progress).all
      (fun q => decide (0 ≤ q) && decide (q ≤ 100)) = true := by
  rw [progressTable]
  norm_num

/-- The progress of the step at 0-based index `i` is `round((i+1)/7*100, 2)`. -/
theorem progressFormula :
    schedule_flow.map calculate_progress
      = (List.range schedule_flow.length).map
          (fun i => pyRound2 (((i : ℚ) + 1) / 7 * 100)) := by
  rw [progressTable]
  rw [show (List.range schedule_flow.length) = [0, 1, 2, 3, 4, 5, 6] from by decide]
  norm_num [pyRound2, pyRound]

/-- Claim C3: when a registered module's `validate_input` returns false,
`_dispatch_module` never invokes `run` (the trace gains only the validate
call and one saved mutation), sets `module_status[name]` to `"failed"`,
appends exactly one error-log entry describing the missing-precondition
failure, persists the context, and returns `{status: "failed", result: {},
error: msg}`. -/
theorem C3_validate_failure_skips_run (beh : Behavior) (name : String) (st : St)
    (hmem : name ∈ schedule_flow) (hv : validateOf name st.ctx = false) :
    (dispatch_module beh name st).1 = ⟨"failed", [], some (validateFailMsg name)⟩
    ∧ (dispatch_module beh name st).2.events
        = st.events ++ [Event.validateCall name false,
            Event.mutation true (dispatch_module beh name st).2.ctx
              (dispatch_module beh name st).2.ctx]
    ∧ (dispatch_module beh name st).2.ctx.error_log
        = st.ctx.error_log ++ [⟨name, some (validateFailMsg name), nowTime⟩]
    ∧ (dispatch_module beh name st).2.ctx.module_status.get name = "failed"
    ∧ (dispatch_module beh name st).2.disk = (dispatch_module beh name st).2.ctx := by
  simp [dispatch_module, update_context, hv, ModuleStatus.get_set _ hmem]

/-- Witness for C3 at a concrete input: dispatching `story_builder` against
the freshly initialised context (whose `demand_interact_info` slot is absent)
never reaches `run` and yields the failed outcome. -/
theorem C3_validate_failure_skips_run_witness :
    (dispatch_module behOK "story_builder" (initSt [] "w3" inputOK)).1
      = ⟨"failed", [], some (validateFailMsg "story_builder")⟩
    ∧ (dispatch_module behOK "story_builder" (initSt [] "w3" inputOK)).2.ctx.module_status.get
        "story_builder" = "failed" := by
  have h := C3_validate_failure_skips_run behOK "story_builder" (initSt [] "w3" inputOK)
    (by decide) (by decide)
  exact ⟨h.1, h.2.2.2.1⟩

/-- Claim C4: a module that raises inside `run` has the exception caught and
converted into a failed outcome of the same `{status, result, error}` shape as
an explicit `{status: "failed"}` return; in both branches `module_status`
transitions busy → failed and exactly one error-log entry is appended within
the dispatch. -/
theorem C4_exception_matches_explicit_failure
    (behE behF : Behavior) (name : String) (st : St) (m : String) (r : Rec) (e : String)
    (hmem : name ∈ schedule_flow) (hv : validateOf name st.ctx = true)
    (hE : ∀ c, behE name c = RunOutcome.raise m)
    (hF : ∀ c, behF name c = RunOutcome.ret "failed" r (some e)) :
    (dispatch_module behE name st).1 = ⟨"failed", [], some (runExcMsg name m)⟩
    ∧ (dispatch_module behF name st).1 = ⟨"failed", r, some e⟩
    ∧ statusTrace name (dispatch_module behE name st).2.events
        = statusTrace name st.events ++ ["busy", "failed"]
    ∧ statusTrace name (dispatch_module behF name st).2.events
        = statusTrace name st.events ++ ["busy", "failed", "failed"]
    ∧ (dispatch_module behE name st).2.ctx.error_log
        = st.ctx.error_log ++ [⟨name, some (runExcMsg name m), nowTime⟩]
    ∧ (dispatch_module behF name st).2.ctx.error_log
        = st.ctx.error_log ++ [⟨name, some e, nowTime⟩] := by
  simp [dispatch_module, update_context, appendLogInPlace, hv, hE, hF, statusTrace,
    ModuleStatus.get_set _ hmem]

/-- Witness for C4 at a concrete input: dispatching `demand_interact` against
the initialised context with a raising behavior and with an explicitly
failing behavior produces outcomes of the same shape. -/
theorem C4_exception_matches_explicit_failure_witness :
    (dispatch_module (fun _ _ => RunOutcome.raise "io error") "demand_interact"
        (initSt [] "w4" inputOK)).1
      = ⟨"failed", [], some (runExcMsg "demand_interact" "io error")⟩
    ∧ (dispatch_module (fun _ _ => RunOutcome.ret "failed" [] (some "bad"))
        "demand_interact" (initSt [] "w4" inputOK)).1
      = ⟨"failed", [], some "bad"⟩ := by
  have h := C4_exception_matches_explicit_failure
    (fun _ _ => RunOutcome.raise "io error")
    (fun _ _ => RunOutcome.ret "failed" [] (some "bad"))
    "demand_interact" (initSt [] "w4" inputOK) "io error" [] "bad"
    (by decide) (by decide) (fun _ => rfl) (fun _ => rfl)
  exact ⟨h.1, h.2.1⟩

/-- Claim C7: per step of the fixed seven-step order, the progress computed
at dispatch time equals `round((index+1)/7*100, 2)`; the seven values are
14.29, 28.57, 42.86, 57.14, 71.43, 85.71, 100, all lie in [0, 100], are
independent of module content (`_calculate_progress` reads only the name's
position), and are non-decreasing along the order; and every dispatch whose
validation passes stamps exactly this value into the context. -/
theorem C7_progress_schedule :
    schedule_flow.map calculate_progress
        = (List.range schedule_flow.length).map
            (fun i => pyRound2 (((i : ℚ) + 1) / 7 * 100))
    ∧ schedule_flow.map calculate_progress
        = [1429 / 100, 2857 / 100, 2143 / 50, 2857 / 50, 7143 / 100, 8571 / 100, 100]
    ∧ (schedule_flow.map calculate_progress).all
        (fun q => decide (0 ≤ q) && decide (q ≤ 100)) = true
    ∧ List.Chain' (· ≤ ·) (schedule_flow.map calculate_progress)
    ∧ ∀ (beh : Behavior) (name : String) (st : St), validateOf name st.ctx = true →
        (dispatch_module beh name st).2.ctx.progress = calculate_progress name := by
  refine ⟨progressFormula, progressTable, progressBounds, progressChain, ?_⟩
  intro beh name st hv
  unfold dispatch_module
  rw [if_neg (by simp [hv])]
  dsimp only
  split
  · dsimp only
    split <;> simp [update_context, appendLogInPlace]
  · simp [update_context]

/-- Witness for C7's dispatch clause at a concrete input: dispatching
`demand_interact` on the initialised context stamps progress 14.29. -/
theorem C7_progress_schedule_witness :
    (dispatch_module behOK "demand_interact" (initSt [] "w7" inputOK)).2.ctx.progress
      = calculate_progress "demand_interact" :=
  C7_progress_schedule.2.2.2.2 behOK "demand_interact" (initSt [] "w7" inputOK) (by decide)

/-- Claim C8: each registered module's `validate_input` is a total pure
function of the context (the embedding is a Lean function, so it cannot
mutate its argument or raise), and it returns `false` whenever any datum the
module needs is missing — in particular `DemandInteractModule.validate_input`
returns `false` rather than throwing when `initial_input` lacks the required
keys. -/
theorem C8_validators_reject_missing_data : ∀ c : Context,
    ((recHas c.initial_input "product_image" = false
        ∨ recHas c.initial_input "character_setting" = false)
      → DemandInteractModule.validate_input c = false)
    ∧ (c.hasKey "demand_interact_info" = false
      → StoryBuilderModule.validate_input c = false)
    ∧ ((c.hasKey "story_builder_info" = false ∨ c.hasKey "demand_interact_info" = false)
      → SceneDesignModule.validate_input c = false)
    ∧ ((c.hasKey "scene_designer_info" = false ∨ c.hasKey "story_builder_info" = false)
      → StoryboardDesignModule.validate_input c = false)
    ∧ ((c.hasKey "storyboard_designer_info" = false ∨ c.hasKey "story_builder_info" = false)
      → GridImageGenerateModule.validate_input c = false)
    ∧ (c.hasKey "grid_image_generator_info" = false
      → ImageOptimizeModule.validate_input c = false)
    ∧ ((c.hasKey "image_optimizer_info" = false ∨ c.hasKey "scene_designer_info" = false)
      → VideoGenerateModule.validate_input c = false) := by
  intro c
  refine ⟨?_, ?_, ?_, ?_, ?_, ?_, ?_⟩
  · rintro (h | h) <;> simp [DemandInteractModule.validate_input, h]
  · intro h; simp [StoryBuilderModule.validate_input, h]
  · rintro (h | h) <;> simp [SceneDesignModule.validate_input, h]
  · rintro (h | h) <;> simp [StoryboardDesignModule.validate_input, h]
  · rintro (h | h) <;> simp [GridImageGenerateModule.validate_input, h]
  · intro h; simp [ImageOptimizeModule.validate_input, h]
  · rintro (h | h) <;> simp [VideoGenerateModule.validate_input, h]

/-- Witness for C8 at a concrete input: on the bare template context (empty
`initial_input`, no result slots) the first two validators return false. -/
theorem C8_validators_reject_missing_data_witness :
    DemandInteractModule.validate_input (context_template []) = false
    ∧ StoryBuilderModule.validate_input (context_template []) = false :=
  ⟨(C8_validators_reject_missing_data (context_template [])).1 (Or.inl (by decide)),
   (C8_validators_reject_missing_data (context_template [])).2.1 (by decide)⟩

/-- A dispatch never touches the legacy `video_info` template slot. -/
theorem dispatch_video_info (beh : Behavior) (name : String) (st : St) :
    (dispatch_module beh name st).2.ctx.video_info = st.ctx.video_info := by
  unfold dispatch_module
  dsimp only
  split
  · simp [update_context]
  · split
    · dsimp only
      split <;> simp [update_context, appendLogInPlace]
    · simp [update_context]

/-- The scheduling loop never touches the legacy `video_info` template slot,
and any early result it produces carries code 500. -/
theorem runSteps_inv (beh : Behavior) (dec : String → Decision) (tid : String) :
    ∀ (steps : List String) (st : St),
      (runSteps beh dec tid steps st).2.ctx.video_info = st.ctx.video_info
      ∧ ∀ r, (runSteps beh dec tid steps st).1 = some r → r.code = 500 := by
  intro steps
  induction steps with
  | nil =>
    intro st
    exact ⟨rfl, by intro r h; simp [runSteps] at h⟩
  | cons name rest ih =>
    intro st
    have ih1 : ∀ s, (runSteps beh dec tid rest s).2.ctx.video_info = s.ctx.video_info :=
      fun s => (ih s).1
    have ih2 : ∀ s r, (runSteps beh dec tid rest s).1 = some r → r.code = 500 :=
      fun s => (ih s).2
    unfold runSteps
    dsimp only
    split
    · refine ⟨by simp [update_context, dispatch_video_info], ?_⟩
      intro r h
      simp only [Option.some_inj] at h
      simp [← h, failResult]
    · split
      · split
        · exact ⟨by rw [ih1]; simp [update_context, dispatch_video_info], ih2 _⟩
        · refine ⟨?_, ?_⟩
          · split_ifs <;>
              first
                | (rw [ih1]; simp [update_context, dispatch_video_info])
                | simp [update_context, dispatch_video_info]
          · split_ifs <;>
              first
                | (intro r h; simp only [Option.some_inj] at h; simp [← h, failResult])
                | exact ih2 _
      · exact ⟨by rw [ih1]; simp [update_context, dispatch_video_info], ih2 _⟩

/-- Claim C1 (code bug): the success branch of `run_ad_task` is unreachable.
Results are stored under the dynamic `"<module>_info"` keys, but the success
return reads `final_context["video_info"]["final_video_path"]`, and
`video_info` is a never-written template slot that stays `{}`; the `KeyError`
reaches the outer `except`, so every run — in particular a run in which all
seven modules validate and succeed — returns code 500, even though the final
context says `task_status = "finished"`, `progress = 100.0`, and the
`video_generator_info` slot does carry the artifact path. -/
theorem C1_success_branch_unreachable :
    (∀ (beh : Behavior) (dec : String → Decision) (tl : List ErrorEntry)
        (tid : String) (inp : Rec), (run_ad_task beh dec tl tid inp).1.code = 500)
    ∧ (run_ad_task behOK decConfirm [] "t1" inputOK).1.status = "failed"
    ∧ (run_ad_task behOK decConfirm [] "t1" inputOK).1.error
        = some "广告任务执行异常：'final_video_path'"
    ∧ (run_ad_task behOK decConfirm [] "t1" inputOK).1.final_video_path = none
    ∧ (run_ad_task behOK decConfirm [] "t1" inputOK).1.task_dir = none
    ∧ (run_ad_task behOK decConfirm [] "t1" inputOK).1.context.task_status = "finished"
    ∧ (run_ad_task behOK decConfirm [] "t1" inputOK).1.context.progress = 100
    ∧ (run_ad_task behOK decConfirm [] "t1" inputOK).1.context.getSlot "video_generator_info"
        = some [("final_video_path", "v.mp4")]
    ∧ (run_ad_task behOK decConfirm [] "t1" inputOK).1.context.video_info = [] := by
  refine ⟨?_, by decide, by decide, by decide, by decide, by decide, rfl, by decide, by decide⟩
  intro beh dec tl tid inp
  unfold run_ad_task
  dsimp only
  rcases hr : runSteps beh dec tid schedule_flow (initSt tl tid inp) with ⟨or, st⟩
  cases or with
  | some res =>
    exact (runSteps_inv beh dec tid schedule_flow (initSt tl tid inp)).2 res (by rw [hr])
  | none =>
    have hv : st.ctx.video_info = [] := by
      have h := (runSteps_inv beh dec tid schedule_flow (initSt tl tid inp)).1
      rw [hr] at h
      simpa [initSt, init_ad_task, context_template] using h
    simp [update_context, hv, recGet]

/-- Counterexample to claim C2 as stated: the claim calls `scene_designer`
the 4th step, but in `schedule_flow` the 4th step (index 3) is
`storyboard_designer`; `scene_designer` sits at index 2 (3rd step). -/
theorem C2_scene_designer_not_fourth_step :
    schedule_flow[2]? = some "scene_designer"
    ∧ schedule_flow[3]? = some "storyboard_designer"
    ∧ ¬ schedule_flow[3]? = some "scene_designer" := by decide

/-- Claim C2 (amended: `scene_designer` is the 3rd step, not the 4th): when
`scene_designer`'s dispatch returns `{status: "failed", error: errX}` after
the first two steps succeed, `run_ad_task` stops immediately — no later
step's `validate_input` or `run` is invoked, every later module's status
stays `"idle"`, the task is marked failed, and the result is code 500 with
the failing step name, the error message, and the last context snapshot. -/
theorem C2_failure_stops_pipeline
    (rv1 rv2 : Context → Rec) (errX : String) (beh : Behavior) (dec : String → Decision)
    (tl : List ErrorEntry) (tid : String) (inp : Rec)
    (h1 : ∀ c, beh "demand_interact" c = RunOutcome.ret "success" (rv1 c) none)
    (h2 : ∀ c, beh "story_builder" c = RunOutcome.ret "success" (rv2 c) none)
    (h3 : ∀ c, beh "scene_designer" c = RunOutcome.ret "failed" [] (some errX))
    (hd : dec "story_builder" = Decision.confirm)
    (hp : recHas inp "product_image" = true)
    (hc : recHas inp "character_setting" = true) :
    (run_ad_task beh dec tl tid inp).1.code = 500
    ∧ (run_ad_task beh dec tl tid inp).1.status = "failed"
    ∧ (run_ad_task beh dec tl tid inp).1.task_id = some tid
    ∧ (run_ad_task beh dec tl tid inp).1.current_step = some "scene_designer"
    ∧ (run_ad_task beh dec tl tid inp).1.error = some errX
    ∧ (run_ad_task beh dec tl tid inp).1.context.task_status = "failed"
    ∧ (run_ad_task beh dec tl tid inp).1.context.module_status.get "storyboard_designer" = "idle"
    ∧ (run_ad_task beh dec tl tid inp).1.context.module_status.get "grid_image_generator" = "idle"
    ∧ (run_ad_task beh dec tl tid inp).1.context.module_status.get "image_optimizer" = "idle"
    ∧ (run_ad_task beh dec tl tid inp).1.context.module_status.get "video_generator" = "idle"
    ∧ attemptNames (run_ad_task beh dec tl tid inp).2.events
        = ["demand_interact", "demand_interact", "story_builder", "story_builder",
           "scene_designer", "scene_designer"] := by
  simp [run_ad_task, schedule_flow, runSteps, dispatch_module, initSt, init_ad_task,
    context_template, update_context, appendLogInPlace, validateOf,
    DemandInteractModule.validate_input, StoryBuilderModule.validate_input,
    SceneDesignModule.validate_input, Context.hasKey, Context.hasSlot, setSlot,
    PAUSE_NODES, h1, h2, h3, hd, hp, hc, attemptNames, ModuleStatus.get, ModuleStatus.set,
    initModuleStatus, failResult]

/-- Witness for C2 at a concrete input: the scenario-B behavior (scene
designer fails with "X") on a valid initial input. -/
theorem C2_failure_stops_pipeline_witness :
    (run_ad_task behFailScene decConfirm [] "t5" inputOK).1.code = 500
    ∧ (run_ad_task behFailScene decConfirm [] "t5" inputOK).1.current_step
        = some "scene_designer"
    ∧ (run_ad_task behFailScene decConfirm [] "t5" inputOK).1.error = some "X"
    ∧ (run_ad_task behFailScene decConfirm [] "t5" inputOK).1.context.module_status.get
        "video_generator" = "idle" := by
  have h := C2_failure_stops_pipeline (fun _ => okResult "demand_interact")
    (fun _ => okResult "story_builder") "X" behFailScene decConfirm [] "t5" inputOK
    (fun _ => rfl) (fun _ => rfl) (fun _ => rfl) rfl (by decide) (by decide)
  exact ⟨h.1, h.2.2.2.1, h.2.2.2.2.1, h.2.2.2.2.2.2.2.2.2.1⟩

/-- Counterexample to claim C5: in a run whose single failed module attempt
is `demand_interact` returning an explicit failed outcome, the final
context's `error_log` holds two entries for that one attempt (one appended
by `_dispatch_module`, a duplicate appended by `run_ad_task` when it marks
the task failed), not exactly one. -/
theorem C5_two_entries_for_one_failed_attempt :
    (runCalls (run_ad_task behFailDemand decConfirm [] "t6" inputOK).2.events).map Prod.fst
      = ["demand_interact"]
    ∧ (run_ad_task behFailDemand decConfirm [] "t6" inputOK).1.context.error_log.length = 2
    ∧ (run_ad_task behFailDemand decConfirm [] "t6" inputOK).1.context.error_log.map
        (fun e => (e.step, e.error))
      = [("demand_interact", some "boom"), ("demand_interact", some "boom")] := by decide

/-- Claim C5 (amended): `_dispatch_module` appends exactly one error-log
entry per failed attempt, and the module undergoes exactly one transition to
`"failed"`; but when the failure terminates the main scheduling loop,
`run_ad_task` appends one additional duplicate entry before marking the task
failed, so such an attempt ends up with two entries in the persisted log. -/
theorem C5_error_logging_amended
    (err : String) (rr : Rec) (beh : Behavior) (dec : String → Decision)
    (tl : List ErrorEntry) (tid : String) (inp : Rec)
    (hb : ∀ c, beh "demand_interact" c = RunOutcome.ret "failed" rr (some err))
    (hp : recHas inp "product_image" = true)
    (hc : recHas inp "character_setting" = true) :
    (run_ad_task beh dec tl tid inp).1.context.error_log
      = tl ++ [⟨"demand_interact", some err, nowTime⟩, ⟨"demand_interact", some err, nowTime⟩]
    ∧ (runCalls (run_ad_task beh dec tl tid inp).2.events).map Prod.fst = ["demand_interact"]
    ∧ statusTrace "demand_interact" (run_ad_task beh dec tl tid inp).2.events
        = ["idle", "busy", "failed", "failed", "failed"]
    ∧ (run_ad_task beh dec tl tid inp).1.context.task_status = "failed" := by
  simp [run_ad_task, schedule_flow, runSteps, dispatch_module, initSt, init_ad_task,
    context_template, update_context, appendLogInPlace, validateOf,
    DemandInteractModule.validate_input, hb, hp, hc, runCalls, statusTrace,
    ModuleStatus.get, ModuleStatus.set, initModuleStatus, failResult]

/-- Witness for C5's amended claim at a concrete input. -/
theorem C5_error_logging_amended_witness :
    (run_ad_task behFailDemand decConfirm [] "t7" inputOK).1.context.error_log
      = [⟨"demand_interact", some "boom", nowTime⟩, ⟨"demand_interact", some "boom", nowTime⟩]
    ∧ statusTrace "demand_interact" (run_ad_task behFailDemand decConfirm [] "t7" inputOK).2.events
        = ["idle", "busy", "failed", "failed", "failed"] := by
  have h := C5_error_logging_amended "boom" [] behFailDemand decConfirm [] "t7" inputOK
    (fun _ => rfl) (by decide) (by decide)
  exact ⟨h.1, h.2.2.1⟩

/-- Claim C6: at a pause node (`story_builder` or `storyboard_designer`), a
revise decision with non-empty feedback causes exactly one re-dispatch of the
same module; the `user_feedback` key is present in the context handed to
`run` during that re-dispatch only — every other `run` call of the task
(including the subsequent module's dispatch, e.g. `scene_designer` after
`story_builder`) sees no `user_feedback` — and it is deleted from the
context after the re-dispatch returns, regardless of the re-dispatch
outcome.  Part 1: `story_builder` revision whose re-dispatch succeeds;
part 2: re-dispatch returns an explicit failed outcome; part 3: re-dispatch
raises; parts 4 and 5: the same at the `storyboard_designer` node (success
and explicit failure). -/
theorem C6_feedback_transient :
    (∀ (rv : String → Context → Rec) (fb : String) (beh : Behavior)
        (dec : String → Decision) (tl : List ErrorEntry) (tid : String) (inp : Rec),
      (∀ n c, beh n c = RunOutcome.ret "success" (rv n c) none) → ¬ fb = "" →
      dec "story_builder" = Decision.revise fb →
      dec "storyboard_designer" = Decision.confirm →
      recHas inp "product_image" = true → recHas inp "character_setting" = true →
        (runCalls (run_ad_task beh dec tl tid inp).2.events).map
            (fun p => (p.1, p.2.user_feedback))
          = [("demand_interact", none), ("story_builder", none),
             ("story_builder", some fb), ("scene_designer", none),
             ("storyboard_designer", none), ("grid_image_generator", none),
             ("image_optimizer", none), ("video_generator", none)]
        ∧ (run_ad_task beh dec tl tid inp).1.context.user_feedback = none)
    ∧ (∀ (rv1 rv2 : Context → Rec) (fb err : String) (beh : Behavior)
        (dec : String → Decision) (tl : List ErrorEntry) (tid : String) (inp : Rec),
      (∀ c, c.user_feedback = none →
        beh "demand_interact" c = RunOutcome.ret "success" (rv1 c) none) →
      (∀ c, c.user_feedback = none →
        beh "story_builder" c = RunOutcome.ret "success" (rv2 c) none) →
      (∀ c, c.user_feedback = some fb →
        beh "story_builder" c = RunOutcome.ret "failed" [] (some err)) →
      ¬ fb = "" → dec "story_builder" = Decision.revise fb →
      recHas inp "product_image" = true → recHas inp "character_setting" = true →
        (run_ad_task beh dec tl tid inp).1.code = 500
        ∧ (run_ad_task beh dec tl tid inp).1.current_step = some "story_builder"
        ∧ (run_ad_task beh dec tl tid inp).1.error = some err
        ∧ (run_ad_task beh dec tl tid inp).1.context.task_status = "failed"
        ∧ (run_ad_task beh dec tl tid inp).1.context.user_feedback = none
        ∧ (runCalls (run_ad_task beh dec tl tid inp).2.events).map
            (fun p => (p.1, p.2.user_feedback))
          = [("demand_interact", none), ("story_builder", none),
             ("story_builder", some fb)])
    ∧ (∀ (rv1 rv2 : Context → Rec) (fb m : String) (beh : Behavior)
        (dec : String → Decision) (tl : List ErrorEntry) (tid : String) (inp : Rec),
      (∀ c, c.user_feedback = none →
        beh "demand_interact" c = RunOutcome.ret "success" (rv1 c) none) →
      (∀ c, c.user_feedback = none →
        beh "story_builder" c = RunOutcome.ret "success" (rv2 c) none) →
      (∀ c, c.user_feedback = some fb → beh "story_builder" c = RunOutcome.raise m) →
      ¬ fb = "" → dec "story_builder" = Decision.revise fb →
      recHas inp "product_image" = true → recHas inp "character_setting" = true →
        (run_ad_task beh dec tl tid inp).1.code = 500
        ∧ (run_ad_task beh dec tl tid inp).1.error = some (runExcMsg "story_builder" m)
        ∧ (run_ad_task beh dec tl tid inp).1.context.user_feedback = none
        ∧ (runCalls (run_ad_task beh dec tl tid inp).2.events).map
            (fun p => (p.1, p.2.user_feedback))
          = [("demand_interact", none), ("story_builder", none),
             ("story_builder", some fb)])
    ∧ (∀ (rv : String → Context → Rec) (fb : String) (beh : Behavior)
        (dec : String → Decision) (tl : List ErrorEntry) (tid : String) (inp : Rec),
      (∀ n c, beh n c = RunOutcome.ret "success" (rv n c) none) → ¬ fb = "" →
      dec "story_builder" = Decision.confirm →
      dec "storyboard_designer" = Decision.revise fb →
      recHas inp "product_image" = true → recHas inp "character_setting" = true →
        (runCalls (run_ad_task beh dec tl tid inp).2.events).map
            (fun p => (p.1, p.2.user_feedback))
          = [("demand_interact", none), ("story_builder", none),
             ("scene_designer", none), ("storyboard_designer", none),
             ("storyboard_designer", some fb), ("grid_image_generator", none),
             ("image_optimizer", none), ("video_generator", none)]
        ∧ (run_ad_task beh dec tl tid inp).1.context.user_feedback = none)
    ∧ (∀ (rv : String → Context → Rec) (fb err : String) (beh : Behavior)
        (dec : String → Decision) (tl : List ErrorEntry) (tid : String) (inp : Rec),
      (∀ n c, c.user_feedback = none →
        beh n c = RunOutcome.ret "success" (rv n c) none) →
      (∀ c, c.user_feedback = some fb →
        beh "storyboard_designer" c = RunOutcome.ret "failed" [] (some err)) →
      ¬ fb = "" → dec "story_builder" = Decision.confirm →
      dec "storyboard_designer" = Decision.revise fb →
      recHas inp "product_image" = true → recHas inp "character_setting" = true →
        (run_ad_task beh dec tl tid inp).1.code = 500
        ∧ (run_ad_task beh dec tl tid inp).1.current_step = some "storyboard_designer"
        ∧ (run_ad_task beh dec tl tid inp).1.error = some err
        ∧ (run_ad_task beh dec tl tid inp).1.context.user_feedback = none
        ∧ (runCalls (run_ad_task beh dec tl tid inp).2.events).map
            (fun p => (p.1, p.2.user_feedback))
          = [("demand_interact", none), ("story_builder", none),
             ("scene_designer", none), ("storyboard_designer", none),
             ("storyboard_designer", some fb)]) := by
  refine ⟨?_, ?_, ?_, ?_, ?_⟩
  · intro rv fb beh dec tl tid inp hb hfb hd1 hd2 hp hc
    have hfb2 : (fb == "") = false := by simp [hfb]
    simp [run_ad_task, schedule_flow, runSteps, dispatch_module, initSt, init_ad_task,
      context_template, update_context, appendLogInPlace, validateOf,
      DemandInteractModule.validate_input, StoryBuilderModule.validate_input,
      SceneDesignModule.validate_input, StoryboardDesignModule.validate_input,
      GridImageGenerateModule.validate_input, ImageOptimizeModule.validate_input,
      VideoGenerateModule.validate_input, Context.hasKey, Context.hasSlot, setSlot,
      PAUSE_NODES, hb, hfb2, hd1, hd2, hp, hc, runCalls, ModuleStatus.get,
      ModuleStatus.set, initModuleStatus, recGet]
  · intro rv1 rv2 fb err beh dec tl tid inp h1 h2a h2b hfb hd1 hp hc
    have hfb2 : (fb == "") = false := by simp [hfb]
    simp [run_ad_task, schedule_flow, runSteps, dispatch_module, initSt, init_ad_task,
      context_template, update_context, appendLogInPlace, validateOf,
      DemandInteractModule.validate_input, StoryBuilderModule.validate_input,
      Context.hasKey, Context.hasSlot, setSlot, PAUSE_NODES, h1, h2a, h2b, hfb2, hd1,
      hp, hc, runCalls, ModuleStatus.get, ModuleStatus.set, initModuleStatus, failResult]
  · intro rv1 rv2 fb m beh dec tl tid inp h1 h2a h2b hfb hd1 hp hc
    have hfb2 : (fb == "") = false := by simp [hfb]
    simp [run_ad_task, schedule_flow, runSteps, dispatch_module, initSt, init_ad_task,
      context_template, update_context, appendLogInPlace, validateOf,
      DemandInteractModule.validate_input, StoryBuilderModule.validate_input,
      Context.hasKey, Context.hasSlot, setSlot, PAUSE_NODES, h1, h2a, h2b, hfb2, hd1,
      hp, hc, runCalls, ModuleStatus.get, ModuleStatus.set, initModuleStatus, failResult]
  · intro rv fb beh dec tl tid inp hb hfb hd1 hd2 hp hc
    have hfb2 : (fb == "") = false := by simp [hfb]
    simp [run_ad_task, schedule_flow, runSteps, dispatch_module, initSt, init_ad_task,
      context_template, update_context, appendLogInPlace, validateOf,
      DemandInteractModule.validate_input, StoryBuilderModule.validate_input,
      SceneDesignModule.validate_input, StoryboardDesignModule.validate_input,
      GridImageGenerateModule.validate_input, ImageOptimizeModule.validate_input,
      VideoGenerateModule.validate_input, Context.hasKey, Context.hasSlot, setSlot,
      PAUSE_NODES, hb, hfb2, hd1, hd2, hp, hc, runCalls, ModuleStatus.get,
      ModuleStatus.set, initModuleStatus, recGet]
  · intro rv fb err beh dec tl tid inp hsucc hre hfb hd1 hd2 hp hc
    have hfb2 : (fb == "") = false := by simp [hfb]
    simp [run_ad_task, schedule_flow, runSteps, dispatch_module, initSt, init_ad_task,
      context_template, update_context, appendLogInPlace, validateOf,
      DemandInteractModule.validate_input, StoryBuilderModule.validate_input,
      SceneDesignModule.validate_input, StoryboardDesignModule.validate_input,
      Context.hasKey, Context.hasSlot, setSlot, PAUSE_NODES, hsucc, hre, hfb2, hd1,
      hd2, hp, hc, runCalls, ModuleStatus.get, ModuleStatus.set, initModuleStatus,
      failResult]

/-- Witness for C6 at concrete inputs, exercising all five parts: a
succeeding, an explicitly failing, and a raising `story_builder` re-dispatch,
and a succeeding and a failing `storyboard_designer` re-dispatch. -/
theorem C6_feedback_transient_witness :
    ((runCalls (run_ad_task behOK decRevise [] "t8" inputOK).2.events).map
        (fun p => (p.1, p.2.user_feedback))
      = [("demand_interact", none), ("story_builder", none),
         ("story_builder", some "make it funnier"), ("scene_designer", none),
         ("storyboard_designer", none), ("grid_image_generator", none),
         ("image_optimizer", none), ("video_generator", none)]
    ∧ (run_ad_task behOK decRevise [] "t8" inputOK).1.context.user_feedback = none)
    ∧ ((run_ad_task behFailOnFeedback decRevise [] "t8b" inputOK).1.code = 500
    ∧ (run_ad_task behFailOnFeedback decRevise [] "t8b" inputOK).1.current_step
        = some "story_builder"
    ∧ (run_ad_task behFailOnFeedback decRevise [] "t8b" inputOK).1.error = some "rejected"
    ∧ (run_ad_task behFailOnFeedback decRevise [] "t8b" inputOK).1.context.task_status
        = "failed"
    ∧ (run_ad_task behFailOnFeedback decRevise [] "t8b" inputOK).1.context.user_feedback
        = none
    ∧ (runCalls (run_ad_task behFailOnFeedback decRevise [] "t8b" inputOK).2.events).map
        (fun p => (p.1, p.2.user_feedback))
      = [("demand_interact", none), ("story_builder", none),
         ("story_builder", some "make it funnier")])
    ∧ ((run_ad_task behRaiseOnFeedback decRevise [] "t8c" inputOK).1.code = 500
    ∧ (run_ad_task behRaiseOnFeedback decRevise [] "t8c" inputOK).1.error
        = some (runExcMsg "story_builder" "llm crash")
    ∧ (run_ad_task behRaiseOnFeedback decRevise [] "t8c" inputOK).1.context.user_feedback
        = none
    ∧ (runCalls (run_ad_task behRaiseOnFeedback decRevise [] "t8c" inputOK).2.events).map
        (fun p => (p.1, p.2.user_feedback))
      = [("demand_interact", none), ("story_builder", none),
         ("story_builder", some "make it funnier")])
    ∧ ((runCalls (run_ad_task behOK decReviseStoryboard [] "t8d" inputOK).2.events).map
        (fun p => (p.1, p.2.user_feedback))
      = [("demand_interact", none), ("story_builder", none), ("scene_designer", none),
         ("storyboard_designer", none), ("storyboard_designer", some "more shots"),
         ("grid_image_generator", none), ("image_optimizer", none),
         ("video_generator", none)]
    ∧ (run_ad_task behOK decReviseStoryboard [] "t8d" inputOK).1.context.user_feedback
        = none)
    ∧ ((run_ad_task behFailOnFeedback decReviseStoryboard [] "t8e" inputOK).1.code = 500
    ∧ (run_ad_task behFailOnFeedback decReviseStoryboard [] "t8e" inputOK).1.current_step
        = some "storyboard_designer"
    ∧ (run_ad_task behFailOnFeedback decReviseStoryboard [] "t8e" inputOK).1.error
        = some "rejected"
    ∧ (run_ad_task behFailOnFeedback decReviseStoryboard
        [] "t8e" inputOK).1.context.user_feedback = none
    ∧ (runCalls (run_ad_task behFailOnFeedback decReviseStoryboard
        [] "t8e" inputOK).2.events).map (fun p => (p.1, p.2.user_feedback))
      = [("demand_interact", none), ("story_builder", none), ("scene_designer", none),
         ("storyboard_designer", none), ("storyboard_designer", some "more shots")]) := by
  refine ⟨?_, ?_, ?_, ?_, ?_⟩
  · exact C6_feedback_transient.1 (fun n _ => okResult n) "make it funnier" behOK
      decRevise [] "t8" inputOK (fun _ _ => rfl) (by decide) rfl rfl
      (by decide) (by decide)
  · exact C6_feedback_transient.2.1 (fun _ => okResult "demand_interact")
      (fun _ => okResult "story_builder") "make it funnier" "rejected"
      behFailOnFeedback decRevise [] "t8b" inputOK
      (fun c h => by simp [behFailOnFeedback, behOK, h])
      (fun c h => by simp [behFailOnFeedback, behOK, h])
      (fun c h => by simp [behFailOnFeedback, h])
      (by decide) rfl (by decide) (by decide)
  · exact C6_feedback_transient.2.2.1 (fun _ => okResult "demand_interact")
      (fun _ => okResult "story_builder") "make it funnier" "llm crash"
      behRaiseOnFeedback decRevise [] "t8c" inputOK
      (fun c h => by simp [behRaiseOnFeedback, behOK, h])
      (fun c h => by simp [behRaiseOnFeedback, behOK, h])
      (fun c h => by simp [behRaiseOnFeedback, h])
      (by decide) rfl (by decide) (by decide)
  · exact C6_feedback_transient.2.2.2.1 (fun n _ => okResult n) "more shots" behOK
      decReviseStoryboard [] "t8d" inputOK (fun _ _ => rfl) (by decide) rfl rfl
      (by decide) (by decide)
  · exact C6_feedback_transient.2.2.2.2 (fun n _ => okResult n) "more shots" "rejected"
      behFailOnFeedback decReviseStoryboard [] "t8e" inputOK
      (fun n c h => by simp [behFailOnFeedback, behOK, h])
      (fun c h => by simp [behFailOnFeedback, h])
      (by decide) rfl rfl (by decide) (by decide)

/-- A saved mutation event is consistent by construction. -/
theorem eventOK_saved (c : Context) : eventOK (Event.mutation true c c) :=
  ⟨fun _ => rfl, rfl⟩

/-- Lemma: `_update_context` only appends a saved, consistent mutation event. -/
theorem update_context_events_ok (b : Bool) (f : Context → Context) (st : St)
    (h : ∀ e ∈ st.events, eventOK e) :
    ∀ e ∈ (update_context b f st).events, eventOK e := by
  intro e he
  simp only [update_context] at he
  rcases List.mem_append.1 he with he | he
  · exact h e he
  · simp only [List.mem_singleton] at he
    subst he
    exact eventOK_saved _

/-- The in-place error-log append also saves, so its event is consistent. -/
theorem appendLogInPlace_events_ok (en : ErrorEntry) (st : St)
    (h : ∀ e ∈ st.events, eventOK e) :
    ∀ e ∈ (appendLogInPlace en st).events, eventOK e := by
  intro e he
  simp only [appendLogInPlace] at he
  rcases List.mem_append.1 he with he | he
  · exact h e he
  · simp only [List.mem_singleton] at he
    subst he
    exact eventOK_saved _

/-- Every branch of `_dispatch_module` ends with a `save_context`, so the
dispatcher always leaves the disk snapshot equal to the in-memory context. -/
theorem dispatch_synced (beh : Behavior) (name : String) (st : St) :
    (dispatch_module beh name st).2.ctx = (dispatch_module beh name st).2.disk := by
  unfold dispatch_module
  dsimp only
  split
  · simp [update_context]
  · split
    · dsimp only
      split <;> simp [update_context, appendLogInPlace]
    · simp [update_context]

/-- All events a dispatch appends are consistent. -/
theorem dispatch_events_ok (beh : Behavior) (name : String) (st : St)
    (h : ∀ e ∈ st.events, eventOK e) :
    ∀ e ∈ (dispatch_module beh name st).2.events, eventOK e := by
  have h2 : ∀ e ∈ st.events ++ [Event.validateCall name (validateOf name st.ctx)],
      eventOK e := by
    intro e he
    rcases List.mem_append.1 he with he | he
    · exact h e he
    · simp only [List.mem_singleton] at he
      subst he
      trivial
  unfold dispatch_module
  dsimp only
  split
  · exact update_context_events_ok _ _ _ h2
  · split
    · dsimp only
      split
      · apply appendLogInPlace_events_ok
        apply update_context_events_ok
        intro e he
        rcases List.mem_append.1 he with he | he
        · exact update_context_events_ok _ _ _ h2 e he
        · simp only [List.mem_singleton] at he
          subst he
          trivial
      · apply update_context_events_ok
        intro e he
        rcases List.mem_append.1 he with he | he
        · exact update_context_events_ok _ _ _ h2 e he
        · simp only [List.mem_singleton] at he
          subst he
          trivial
    · apply update_context_events_ok
      intro e he
      rcases List.mem_append.1 he with he | he
      · exact update_context_events_ok _ _ _ h2 e he
      · simp only [List.mem_singleton] at he
        subst he
        trivial

/-- Every event the scheduling loop appends is consistent: saved mutations
leave disk = memory, and the only unsaved mutations (feedback injection and
deletion) differ from disk exactly in the `user_feedback` key. -/
theorem runSteps_events_ok (beh : Behavior) (dec : String → Decision) (tid : String) :
    ∀ (steps : List String) (st : St), (∀ e ∈ st.events, eventOK e) →
      ∀ e ∈ (runSteps beh dec tid steps st).2.events, eventOK e := by
  intro steps
  induction steps with
  | nil =>
    intro st h
    simpa [runSteps] using h
  | cons name rest ih =>
    intro st h
    have hd := dispatch_events_ok beh name st h
    unfold runSteps
    dsimp only
    split
    · exact update_context_events_ok _ _ _ hd
    · split
      · split
        · exact ih _ (update_context_events_ok _ _ _ hd)
        · split_ifs with hA hB hC hD hE hF <;>
            first
              | (apply update_context_events_ok
                 intro e he
                 first
                   | (dsimp only at he
                      rcases List.mem_append.1 he with he | he
                      · refine dispatch_events_ok _ _ _ ?_ e he
                        first
                          | exact update_context_events_ok _ _ _ hd
                          | (intro e2 he2
                             dsimp only at he2
                             rcases List.mem_append.1 he2 with he2 | he2
                             · exact update_context_events_ok _ _ _ hd e2 he2
                             · simp only [List.mem_singleton] at he2
                               subst he2
                               exact ⟨by simp, by simp [eraseFeedback, update_context]⟩)
                      · simp only [List.mem_singleton] at he
                        subst he
                        refine ⟨by simp, ?_⟩
                        rw [dispatch_synced]
                        simp [eraseFeedback])
                   | (refine dispatch_events_ok _ _ _ ?_ e he
                      first
                        | exact update_context_events_ok _ _ _ hd
                        | (intro e2 he2
                           dsimp only at he2
                           rcases List.mem_append.1 he2 with he2 | he2
                           · exact update_context_events_ok _ _ _ hd e2 he2
                           · simp only [List.mem_singleton] at he2
                             subst he2
                             exact ⟨by simp, by simp [eraseFeedback, update_context]⟩)))
              | (apply ih
                 apply update_context_events_ok
                 intro e he
                 first
                   | (dsimp only at he
                      rcases List.mem_append.1 he with he | he
                      · refine dispatch_events_ok _ _ _ ?_ e he
                        first
                          | exact update_context_events_ok _ _ _ hd
                          | (intro e2 he2
                             dsimp only at he2
                             rcases List.mem_append.1 he2 with he2 | he2
                             · exact update_context_events_ok _ _ _ hd e2 he2
                             · simp only [List.mem_singleton] at he2
                               subst he2
                               exact ⟨by simp, by simp [eraseFeedback, update_context]⟩)
                      · simp only [List.mem_singleton] at he
                        subst he
                        refine ⟨by simp, ?_⟩
                        rw [dispatch_synced]
                        simp [eraseFeedback])
                   | (refine dispatch_events_ok _ _ _ ?_ e he
                      first
                        | exact update_context_events_ok _ _ _ hd
                        | (intro e2 he2
                           dsimp only at he2
                           rcases List.mem_append.1 he2 with he2 | he2
                           · exact update_context_events_ok _ _ _ hd e2 he2
                           · simp only [List.mem_singleton] at he2
                             subst he2
                             exact ⟨by simp, by simp [eraseFeedback, update_context]⟩)))
      · exact ih _ (update_context_events_ok _ _ _ hd)

/-- Counterexample to claim C9: in a revision run there is a context
mutation (the `user_feedback` injection at `run_ad_task` line 193, and again
the deletion at lines 199-200) after which the persisted snapshot differs
from the in-memory context — neither is followed by a `save_context`. -/
theorem C9_not_every_mutation_persisted :
    (run_ad_task behOK decRevise [] "t9" inputOK).2.events.any unsyncedMutation = true := by
  decide

/-- Claim C9 (amended): after every mutation performed through
`_update_context` or the dispatcher's error-log append the disk snapshot
equals the in-memory context; the only unpersisted transitions are the
`user_feedback` injection and deletion around a revision re-dispatch, after
which disk and memory differ exactly in the `user_feedback` key until the
next persisted update. -/
theorem C9_persistence_amended (beh : Behavior) (dec : String → Decision)
    (tl : List ErrorEntry) (tid : String) (inp : Rec) :
    ∀ e ∈ (run_ad_task beh dec tl tid inp).2.events, eventOK e := by
  have hinit : ∀ e ∈ (initSt tl tid inp).events, eventOK e := by
    intro e he
    simp only [initSt, List.mem_singleton] at he
    subst he
    exact eventOK_saved _
  have hrun := runSteps_events_ok beh dec tid schedule_flow (initSt tl tid inp) hinit
  unfold run_ad_task
  dsimp only
  rcases hr : runSteps beh dec tid schedule_flow (initSt tl tid inp) with ⟨or, st⟩
  rw [hr] at hrun
  cases or with
  | some res => exact hrun
  | none =>
    dsimp only
    rcases recGet (update_context false
        (fun c => { c with task_status := "finished", progress := 100 }) st).ctx.video_info
        "final_video_path" with _ | p
    · exact update_context_events_ok _ _ _ hrun
    · exact update_context_events_ok _ _ _ hrun

/-- Witness for C9's amended claim at a concrete input: the very first
persisted mutation (written by `init_ad_task`) of a concrete run. -/
theorem C9_persistence_amended_witness :
    eventOK (Event.mutation true (init_ad_task [] "t9w" inputOK)
      (init_ad_task [] "t9w" inputOK)) := by
  have hm : Event.mutation true (init_ad_task [] "t9w" inputOK)
      (init_ad_task [] "t9w" inputOK)
      ∈ (run_ad_task behOK decConfirm [] "t9w" inputOK).2.events := by
    have hh : (run_ad_task behOK decConfirm [] "t9w" inputOK).2.events.head?
        = some (Event.mutation true (init_ad_task [] "t9w" inputOK)
            (init_ad_task [] "t9w" inputOK)) := rfl
    rw [List.eq_cons_of_mem_head? (Option.mem_def.2 hh)]
    exact List.mem_cons_self _ _
  exact C9_persistence_amended behOK decConfirm [] "t9w" inputOK _ hm

/-- Counterexample to claim C10: `init_ad_task` copies the template
shallowly, and the dispatcher's in-place `error_log.append` (on a module
returning an explicit failed outcome before any list replacement) mutates
the template's own list; a later `init_ad_task` on the same control plane
then returns a context whose `error_log` is not empty. -/
theorem C10_error_log_leaks_across_tasks :
    (init_ad_task (run_ad_task behFailDemand decConfirm [] "ta" inputOK).2.tmplLog
        "tb" inputOK).error_log
      = [⟨"demand_interact", some "boom", nowTime⟩]
    ∧ ¬ (init_ad_task (run_ad_task behFailDemand decConfirm [] "ta" inputOK).2.tmplLog
        "tb" inputOK).error_log = [] := by
  decide

/-- Claim C10 (amended): every context returned by `init_ad_task` starts
with `task_status = "processing"`, every module status `"idle"`, no result
slots, no `user_feedback`, and progress 0; its `error_log`, however, is the
template's own (shared) list, so it is empty only as long as no earlier task
on the same control plane polluted the template via the dispatcher's
in-place append. -/
theorem C10_init_fresh_except_shared_error_log
    (tl : List ErrorEntry) (tid : String) (inp : Rec) :
    (init_ad_task tl tid inp).task_status = "processing"
    ∧ (init_ad_task tl tid inp).module_status = initModuleStatus
    ∧ schedule_flow.map (fun n => (init_ad_task tl tid inp).module_status.get n)
        = ["idle", "idle", "idle", "idle", "idle", "idle", "idle"]
    ∧ (init_ad_task tl tid inp).infoSlots = []
    ∧ (init_ad_task tl tid inp).user_feedback = none
    ∧ (init_ad_task tl tid inp).progress = 0
    ∧ (init_ad_task tl tid inp).task_id = some tid
    ∧ (init_ad_task tl tid inp).initial_input = inp
    ∧ (init_ad_task tl tid inp).error_log = tl := by
  simp [init_ad_task, context_template, initModuleStatus, schedule_flow, ModuleStatus.get]

end AdAgent
